import Mathlib

/-!
# Packet inspector (`src/native/go/packetinspextor/main.go`)

A shallow embedding of the Go packet inspector: `StartPacketCapture`,
`analyzePacket`, `analyzeNGAP`, `analyzePFCP`, `detectThreats`,
`isPotentialDoS` and `isSuspiciousPattern`.

Modelling choices.

* `map[string]interface{}` is a key/value list (`GoMap`) with `lookup` and
  `assign`; `assign` overwrites the value of a key that is already present,
  as a Go map assignment does.
* The libraries `gopacket` and `pcap` are not part of the repository.  A
  decoded packet is a list of layers plus capture metadata, and
  `Packet.Layer` returns the first layer of a type.  `pcap.OpenLive` is a
  parameter; a handle carries the outcome of `SetBPFFilter` and the frames
  that its packet source delivers before the channel is closed.
* The frames of a handle are a finite list: the frames received from the
  channel of the packet source until it is closed.  A source that stays open
  without delivering a 100th frame keeps the Go loop waiting; that case has
  no counterpart here.
* The value handed to `json.Marshal` is the `Output`; the JSON text and the
  C string allocation are outside the embedding.
-/

namespace PacketInspector

/-! ## Values and maps -/

/-- Dynamic values stored under `interface{}` in the maps of the program. -/
inductive Value where
  | time (t : Int)
  | int (n : Int)
  | str (s : String)
  | strs (l : List String)
  | obj (m : List (String × Value))

/-- A Go `map[string]interface{}`. -/
abbrev GoMap := List (String × Value)

/-- Map read `m[k]`, `none` when the key is absent. -/
def lookup : GoMap → String → Option Value
  | [], _ => none
  | (k', v) :: rest, k => if k' = k then some v else lookup rest k

/-- Map write `m[k] = v`: replaces the value of an existing key, otherwise adds the key. -/
def assign : GoMap → String → Value → GoMap
  | [], k, v => [(k, v)]
  | (k', v') :: rest, k, v => if k' = k then (k, v) :: rest else (k', v') :: assign rest k v

/-! ## Packets (gopacket) -/

/-- Layer types of decoded packets. -/
inductive LayerType where
  | Ethernet | IPv4 | IPv6 | TCP | UDP | SCTP | NGAP | PFCP | Payload | DecodeFailure
  deriving DecidableEq, Repr

/-- A decoded layer: its type, its header bytes and the bytes it carries. -/
structure Layer where
  layerType : LayerType
  contents : List Nat
  payload : List Nat
  deriving DecidableEq, Repr

/-- Capture metadata of a packet (`gopacket.PacketMetadata`). -/
structure PacketMetadata where
  Timestamp : Int
  CaptureLength : Int
  Length : Int
  Truncated : Bool
  deriving DecidableEq, Repr

/-- A decoded packet (`gopacket.Packet`). -/
structure Packet where
  data : List Nat
  layers : List Layer
  metadata : PacketMetadata
  deriving DecidableEq, Repr

/-- The method `packet.Layer(t)`: the first layer of type `t`, `none` for Go's nil. -/
def Packet.Layer (packet : Packet) (t : LayerType) : Option Layer :=
  packet.layers.find? (fun l => decide (l.layerType = t))

/-- The method `packet.Metadata()`. -/
def Packet.Metadata (packet : Packet) : PacketMetadata := packet.metadata

/-! ## Capture handles (pcap) -/

/-- An open capture handle: the error of `SetBPFFilter` (if any) for each filter
expression, the link type, and the frames delivered before the source closes. -/
structure Handle where
  SetBPFFilter : String → Option String
  LinkType : LayerType
  frames : List Packet

/-- The constant `pcap.BlockForever`, in nanoseconds. -/
def BlockForever : Int := -10000000

/-- The function `gopacket.NewPacketSource(handle, decoder).Packets()`, as the list of
frames received from the channel. -/
def NewPacketSource (handle : Handle) (_decoder : LayerType) : List Packet := handle.frames

/-- The type of `pcap.OpenLive(device, snaplen, promisc, timeout)`. -/
abbrev OpenLiveFn := String → Nat → Bool → Int → Except String Handle

/-! ## The program -/

/-- Source: `analyzeNGAP`. -/
def analyzeNGAP (_layer : Layer) : GoMap :=
  let analysis : GoMap := []
  let analysis := assign analysis "message_type" (.str "NGAP_Message")
  analysis

/-- Source: `analyzePFCP`. -/
def analyzePFCP (_layer : Layer) : GoMap :=
  let analysis : GoMap := []
  let analysis := assign analysis "message_type" (.str "PFCP_Message")
  analysis

/-- Source: `isPotentialDoS`. -/
def isPotentialDoS (_packet : Packet) : Bool := false

/-- Source: `isSuspiciousPattern`. -/
def isSuspiciousPattern (_packet : Packet) : Bool := false

/-- Source: the body of `detectThreats`, with the two rules that it calls as parameters. -/
def detectThreatsWith (isPotentialDoS isSuspiciousPattern : Packet → Bool)
    (packet : Packet) : List String :=
  let threats : List String := []
  let threats := if isPotentialDoS packet then threats ++ ["Potential DoS Attack"] else threats
  let threats :=
    if isSuspiciousPattern packet then threats ++ ["Suspicious Pattern Detected"] else threats
  threats

/-- Source: `detectThreats`, the body above run with the rules `isPotentialDoS` and
`isSuspiciousPattern` of the program. -/
def detectThreats (packet : Packet) : List String :=
  detectThreatsWith isPotentialDoS isSuspiciousPattern packet

/-- Source: `analyzePacket`. -/
def analyzePacket (packet : Packet) : GoMap :=
  let result : GoMap := []
  let result := assign result "timestamp" (.time packet.Metadata.Timestamp)
  let result := assign result "length" (.int packet.Metadata.Length)
  let result :=
    match packet.Layer LayerType.NGAP with
    | some ngapLayer =>
      let result := assign result "protocol" (.str "NGAP")
      assign result "analysis" (.obj (analyzeNGAP ngapLayer))
    | none => result
  let result :=
    match packet.Layer LayerType.PFCP with
    | some pfcpLayer =>
      let result := assign result "protocol" (.str "PFCP")
      assign result "analysis" (.obj (analyzePFCP pfcpLayer))
    | none => result
  let threats := detectThreats packet
  let result := if threats.length > 0 then assign result "threats" (.strs threats) else result
  result

/-- The loop `for packet := range packetSource.Packets()` of `StartPacketCapture`,
with the slice `results` as accumulator. -/
def captureLoop : List Packet → List GoMap → List GoMap
  | [], results => results
  | packet :: rest, results =>
    let result := analyzePacket packet
    let results := results ++ [result]
    if results.length ≥ 100 then results else captureLoop rest results

/-- What `StartPacketCapture` passes to `json.Marshal`: one map, or a slice of maps. -/
inductive Output where
  | object (m : GoMap)
  | array (rs : List GoMap)

/-- Source: `StartPacketCapture`. -/
def StartPacketCapture (OpenLive : OpenLiveFn) (device filter : String) : Output :=
  match OpenLive device 1600 true BlockForever with
  | .error err =>
    let result : GoMap := assign [] "error" (.str err)
    .object result
  | .ok handle =>
    match handle.SetBPFFilter filter with
    | some err =>
      let result : GoMap := assign [] "error" (.str err)
      .object result
    | none =>
      let packetSource := NewPacketSource handle handle.LinkType
      let results : List GoMap := []
      let results := captureLoop packetSource results
      .array results

/-- The error records of an output: the single map of an object output that has the key `error`. -/
def Output.errorRecords : Output → List GoMap
  | .object m => if (lookup m "error").isSome then [m] else []
  | .array _ => []

/-- The per-frame result records of an output: the elements of an array output. -/
def Output.resultRecords : Output → List GoMap
  | .object _ => []
  | .array rs => rs


/-! ## Sample frames and capture environments -/

/-- Capture metadata of a frame of `len` bytes captured at time `ts`. -/
def sampleMetadata (ts len : Int) : PacketMetadata :=
  { Timestamp := ts, CaptureLength := len, Length := len, Truncated := false }

/-- Ethernet, IPv4 (10.0.0.1 to 10.0.0.2) and UDP (port 8805 to port 8805) layers of a frame
whose UDP payload is `body`. -/
def udp8805Layers (body : List Nat) : List Layer :=
  [ { layerType := .Ethernet, contents := [2, 0, 0, 0, 0, 2, 2, 0, 0, 0, 0, 1, 8, 0], payload := [] },
    { layerType := .IPv4,
      contents := [69, 0, 0, 28 + body.length, 0, 0, 0, 0, 64, 17, 0, 0, 10, 0, 0, 1, 10, 0, 0, 2],
      payload := [] },
    { layerType := .UDP, contents := [34, 101, 34, 101, 0, 8 + body.length, 0, 0],
      payload := body } ]

/-- An 8-byte PFCP header (version 1, no SEID) with the given message type and
sequence number 1. -/
def pfcpHeader (messageType : Nat) : List Nat := [32, messageType, 0, 4, 0, 0, 1, 0]

/-- A UDP frame on port 8805 decoded with a PFCP layer holding an 8-byte header. -/
def pfcpFrame (ts : Int) (messageType : Nat) : Packet :=
  { data := [],
    layers := udp8805Layers (pfcpHeader messageType) ++
      [ { layerType := .PFCP, contents := pfcpHeader messageType, payload := [] } ],
    metadata := sampleMetadata ts 50 }

/-- A PFCP Heartbeat Request (message type 1). -/
def heartbeatRequestFrame : Packet := pfcpFrame 1700000000000000000 1

/-- A PFCP Heartbeat Response (message type 2), otherwise equal to `heartbeatRequestFrame`. -/
def heartbeatResponseFrame : Packet := pfcpFrame 1700000000000000000 2

/-- A UDP frame on port 8805 with 3 bytes of payload: no PFCP layer is decoded. -/
def shortPfcpFrame : Packet :=
  { data := [],
    layers := udp8805Layers [32, 1, 0] ++
      [ { layerType := .DecodeFailure, contents := [32, 1, 0], payload := [] } ],
    metadata := sampleMetadata 1700000000000000000 45 }

/-- An SCTP frame decoded with an NGAP layer. -/
def ngapFrame : Packet :=
  { data := [],
    layers :=
      [ { layerType := .Ethernet, contents := [], payload := [] },
        { layerType := .IPv4, contents := [], payload := [] },
        { layerType := .SCTP, contents := [150, 12, 150, 12], payload := [] },
        { layerType := .NGAP, contents := [0, 21, 0, 0], payload := [] } ],
    metadata := sampleMetadata 1700000000000000000 66 }

/-- A packet whose layer list holds an NGAP layer and a PFCP layer. -/
def bothLayersFrame : Packet :=
  { data := [],
    layers :=
      [ { layerType := .Ethernet, contents := [], payload := [] },
        { layerType := .NGAP, contents := [0, 21, 0, 0], payload := [] },
        { layerType := .PFCP, contents := pfcpHeader 1, payload := [] } ],
    metadata := sampleMetadata 1700000000000000000 80 }

/-- The `i`-th frame of a burst from one source: Heartbeat Requests one millisecond apart. -/
def floodFrame (i : Nat) : Packet := pfcpFrame (1700000000000000000 + 1000000 * (i : Int)) 1

/-- A burst of 1000 frames from one source, all within one second. -/
def floodFrames : List Packet := (List.range 1000).map floodFrame

/-- A handle that accepts only the filter `udp port 8805` and delivers `frames`. -/
def sampleHandle (frames : List Packet) : Handle :=
  { SetBPFFilter := fun f => if f = "udp port 8805" then none else some "syntax error",
    LinkType := .Ethernet,
    frames := frames }

/-- A capture environment with the single device `eth0`, which delivers `frames`. -/
def sampleOpenLive (frames : List Packet) : OpenLiveFn :=
  fun device _ _ _ =>
    if device = "eth0" then .ok (sampleHandle frames) else .error "No such device exists"


/-- A volumetric rule for the rule engine: fires on frames longer than 1000 bytes. -/
def sampleDoSRule (packet : Packet) : Bool := decide (packet.Metadata.Length > 1000)

/-- A pattern rule for the rule engine: fires on truncated frames. -/
def sampleTruncatedRule (packet : Packet) : Bool := packet.Metadata.Truncated

/-- A truncated frame of 1500 bytes: both sample rules fire on it. -/
def oversizedTruncatedFrame : Packet :=
  { data := [],
    layers := udp8805Layers (pfcpHeader 1),
    metadata :=
      { Timestamp := 1700000000000000000, CaptureLength := 1000, Length := 1500,
        Truncated := true } }

/-! ## Observations on records -/

/-- The value under `message_type` in the `analysis` map of a record, if there is one. -/
def analysisMessageType (record : GoMap) : Option Value :=
  match lookup record "analysis" with
  | some (.obj analysis) => lookup analysis "message_type"
  | _ => none

/-- The record lists threat `t` under its `threats` key. -/
def carriesThreat (record : GoMap) (t : String) : Prop :=
  ∃ threats, lookup record "threats" = some (.strs threats) ∧ t ∈ threats

/-- The entries that the two protocol checks of `analyzePacket` leave in the record. -/
def protocolEntries (packet : Packet) : GoMap :=
  match packet.Layer .NGAP, packet.Layer .PFCP with
  | _, some _ =>
    [("protocol", .str "PFCP"), ("analysis", .obj [("message_type", .str "PFCP_Message")])]
  | some _, none =>
    [("protocol", .str "NGAP"), ("analysis", .obj [("message_type", .str "NGAP_Message")])]
  | none, none => []

/-- The entry that the threat check of `analyzePacket` leaves in the record. -/
def threatEntries (threats : List String) : GoMap :=
  if threats.length > 0 then [("threats", .strs threats)] else []

/-! ## Auxiliary lemmas -/

theorem detectThreats_eq_nil (packet : Packet) : detectThreats packet = [] := by
  simp [detectThreats, detectThreatsWith, isPotentialDoS, isSuspiciousPattern]

/-- Closed form of `analyzePacket`, with `detectThreats` left abstract. -/
theorem analyzePacket_shape (packet : Packet) :
    analyzePacket packet =
      [("timestamp", .time packet.metadata.Timestamp), ("length", .int packet.metadata.Length)] ++
        protocolEntries packet ++ threatEntries (detectThreats packet) := by
  unfold analyzePacket protocolEntries threatEntries
  generalize detectThreats packet = threats
  cases h1 : packet.Layer .NGAP <;> cases h2 : packet.Layer .PFCP <;> cases threats <;>
    simp [assign, Packet.Metadata, analyzeNGAP, analyzePFCP]

/-- Closed form of `analyzePacket`. -/
theorem analyzePacket_eq (packet : Packet) :
    analyzePacket packet =
      [("timestamp", .time packet.metadata.Timestamp), ("length", .int packet.metadata.Length)] ++
        protocolEntries packet := by
  rw [analyzePacket_shape, detectThreats_eq_nil]
  simp [threatEntries]

theorem captureLoop_eq (frames : List Packet) :
    ∀ results : List GoMap, results.length < 100 →
      captureLoop frames results =
        results ++ (frames.take (100 - results.length)).map analyzePacket := by
  induction frames with
  | nil => intro results _; simp [captureLoop]
  | cons p rest ih =>
    intro results h
    unfold captureLoop
    simp only [List.length_append, List.length_singleton]
    by_cases hfull : results.length + 1 ≥ 100
    · have : 100 - results.length = 1 := by omega
      simp [hfull, this]
    · rw [if_neg hfull, ih _ (by simp; omega)]
      have : 100 - results.length = (100 - (results.length + 1)) + 1 := by omega
      rw [this]
      simp

theorem StartPacketCapture_open_error (OpenLive : OpenLiveFn) (device filter msg : String)
    (hopen : OpenLive device 1600 true BlockForever = .error msg) :
    StartPacketCapture OpenLive device filter = .object [("error", .str msg)] := by
  simp [StartPacketCapture, hopen, assign]

theorem StartPacketCapture_filter_error (OpenLive : OpenLiveFn) (device filter msg : String)
    (handle : Handle) (hopen : OpenLive device 1600 true BlockForever = .ok handle)
    (hfilter : handle.SetBPFFilter filter = some msg) :
    StartPacketCapture OpenLive device filter = .object [("error", .str msg)] := by
  simp [StartPacketCapture, hopen, hfilter, assign]

theorem StartPacketCapture_started (OpenLive : OpenLiveFn) (device filter : String)
    (handle : Handle) (hopen : OpenLive device 1600 true BlockForever = .ok handle)
    (hfilter : handle.SetBPFFilter filter = none) :
    StartPacketCapture OpenLive device filter =
      .array ((handle.frames.take 100).map analyzePacket) := by
  simp [StartPacketCapture, hopen, hfilter, NewPacketSource, captureLoop_eq]

/-- Every output of `StartPacketCapture` lists only records of analysed frames. -/
theorem resultRecords_analysed (OpenLive : OpenLiveFn) (device filter : String) (r : GoMap)
    (hr : r ∈ (StartPacketCapture OpenLive device filter).resultRecords) :
    ∃ packet, r = analyzePacket packet := by
  unfold StartPacketCapture at hr
  split at hr
  · simp [Output.resultRecords] at hr
  · rename_i handle _
    split at hr
    · simp [Output.resultRecords] at hr
    · simp only [Output.resultRecords, NewPacketSource] at hr
      rw [captureLoop_eq _ _ (by simp)] at hr
      simp only [List.nil_append, List.mem_map] at hr
      obtain ⟨p, _, hp⟩ := hr
      exact ⟨p, hp.symm⟩

theorem lookup_threats_analyzePacket (packet : Packet) :
    lookup (analyzePacket packet) "threats" = none := by
  rw [analyzePacket_eq]
  unfold protocolEntries
  split <;> simp [lookup]


/-! ## Session start failures -/

/-- C1: when `pcap.OpenLive` fails, or it succeeds and `SetBPFFilter` fails, with message
`msg`, `StartPacketCapture` returns the single map with the one key `error` bound to `msg`:
exactly one error record, and no per-frame result record. -/
theorem start_failure_yields_single_error_record (OpenLive : OpenLiveFn)
    (device filter msg : String)
    (hfail : OpenLive device 1600 true BlockForever = .error msg ∨
      ∃ handle, OpenLive device 1600 true BlockForever = .ok handle ∧
        handle.SetBPFFilter filter = some msg) :
    StartPacketCapture OpenLive device filter = .object [("error", .str msg)] ∧
      (StartPacketCapture OpenLive device filter).errorRecords = [[("error", .str msg)]] ∧
      (StartPacketCapture OpenLive device filter).resultRecords = [] := by
  have hout : StartPacketCapture OpenLive device filter = .object [("error", .str msg)] := by
    rcases hfail with hopen | ⟨handle, hopen, hfilter⟩
    · exact StartPacketCapture_open_error OpenLive device filter msg hopen
    · exact StartPacketCapture_filter_error OpenLive device filter msg handle hopen hfilter
  rw [hout]
  simp [Output.errorRecords, Output.resultRecords, lookup]

/-- C1, on an unknown device and on a filter expression that is rejected. -/
theorem start_failure_yields_single_error_record_witness :
    (sampleOpenLive [heartbeatRequestFrame] "wlan9" 1600 true BlockForever =
        .error "No such device exists" ∧
      StartPacketCapture (sampleOpenLive [heartbeatRequestFrame]) "wlan9" "udp port 8805" =
        .object [("error", .str "No such device exists")]) ∧
    ((∃ handle, sampleOpenLive [heartbeatRequestFrame] "eth0" 1600 true BlockForever =
        .ok handle ∧ handle.SetBPFFilter "udp port port" = some "syntax error") ∧
      (StartPacketCapture (sampleOpenLive [heartbeatRequestFrame]) "eth0"
        "udp port port").errorRecords = [[("error", .str "syntax error")]] ∧
      (StartPacketCapture (sampleOpenLive [heartbeatRequestFrame]) "eth0"
        "udp port port").resultRecords = []) := by
  have hopen : sampleOpenLive [heartbeatRequestFrame] "wlan9" 1600 true BlockForever =
      .error "No such device exists" := by
    simp [sampleOpenLive]
  have hfilter : ∃ handle, sampleOpenLive [heartbeatRequestFrame] "eth0" 1600 true
      BlockForever = .ok handle ∧ handle.SetBPFFilter "udp port port" = some "syntax error" :=
    ⟨sampleHandle [heartbeatRequestFrame], by simp [sampleOpenLive], by simp [sampleHandle]⟩
  exact ⟨⟨hopen, (start_failure_yields_single_error_record _ "wlan9" "udp port 8805" _
      (Or.inl hopen)).1⟩,
    hfilter, (start_failure_yields_single_error_record _ "eth0" "udp port port" _
      (Or.inr hfilter)).2⟩

/-! ## Results of a started session -/

/-- C2: in a session that started (device opened, filter accepted), the result list is
`analyzePacket` applied, in arrival order, to the first `min n 100` of the `n` frames:
one record per frame, at most 100 records, nothing for later frames, and no error record. -/
theorem started_session_yields_first_frames (OpenLive : OpenLiveFn) (device filter : String)
    (handle : Handle) (hopen : OpenLive device 1600 true BlockForever = .ok handle)
    (hfilter : handle.SetBPFFilter filter = none) :
    StartPacketCapture OpenLive device filter =
        .array ((handle.frames.take (min handle.frames.length 100)).map analyzePacket) ∧
      (StartPacketCapture OpenLive device filter).resultRecords.length =
        min handle.frames.length 100 ∧
      (StartPacketCapture OpenLive device filter).resultRecords.length ≤ 100 ∧
      (∀ i, i < min handle.frames.length 100 →
        (StartPacketCapture OpenLive device filter).resultRecords[i]? =
          (handle.frames[i]?).map analyzePacket) ∧
      (∀ i, min handle.frames.length 100 ≤ i →
        (StartPacketCapture OpenLive device filter).resultRecords[i]? = none) ∧
      (StartPacketCapture OpenLive device filter).errorRecords = [] := by
  rw [StartPacketCapture_started OpenLive device filter handle hopen hfilter]
  have htake : handle.frames.take (min handle.frames.length 100) = handle.frames.take 100 := by
    rcases Nat.le_total handle.frames.length 100 with h | h
    · rw [Nat.min_eq_left h, List.take_of_length_le h, List.take_of_length_le (le_refl _)]
    · rw [Nat.min_eq_right h]
  refine ⟨by rw [htake], ?_, ?_, ?_, ?_, ?_⟩
  · simp [Output.resultRecords, Nat.min_comm]
  · simp [Output.resultRecords]
  · intro i hi
    have hi100 : i < 100 := lt_of_lt_of_le hi (Nat.min_le_right _ _)
    simp [Output.resultRecords, List.getElem?_take, hi100]
  · intro i hi
    simp only [Output.resultRecords]
    apply List.getElem?_eq_none
    simp only [List.length_map, List.length_take]
    rw [Nat.min_comm]; exact hi
  · simp [Output.errorRecords]

/-- C2, on a burst of 1000 frames: exactly 100 records are returned. -/
theorem started_session_yields_first_frames_witness :
    sampleOpenLive floodFrames "eth0" 1600 true BlockForever = .ok (sampleHandle floodFrames) ∧
      (sampleHandle floodFrames).SetBPFFilter "udp port 8805" = none ∧
      (StartPacketCapture (sampleOpenLive floodFrames) "eth0" "udp port 8805").resultRecords.length
        = 100 := by
  have hopen : sampleOpenLive floodFrames "eth0" 1600 true BlockForever =
      .ok (sampleHandle floodFrames) := by simp [sampleOpenLive]
  have hfilter : (sampleHandle floodFrames).SetBPFFilter "udp port 8805" = none := by
    simp [sampleHandle]
  refine ⟨hopen, hfilter, ?_⟩
  have h := (started_session_yields_first_frames (sampleOpenLive floodFrames) "eth0"
    "udp port 8805" (sampleHandle floodFrames) hopen hfilter).2.1
  have hlen : (sampleHandle floodFrames).frames.length = 1000 := by
    simp only [sampleHandle, floodFrames, List.length_map, List.length_range]
  rw [hlen] at h
  exact h

/-! ## The record of one frame -/

/-- C3: the record of a frame binds `timestamp` and `length` to the capture timestamp and
wire length; `protocol` is absent, `NGAP` or `PFCP`; `analysis` is present exactly when
`protocol` is, and is then a map with the key `message_type`; `threats` is bound to the list
of `detectThreats` when that list is non-empty and is absent otherwise. -/
theorem analyzePacket_record_fields (packet : Packet) :
    lookup (analyzePacket packet) "timestamp" = some (.time packet.Metadata.Timestamp) ∧
      lookup (analyzePacket packet) "length" = some (.int packet.Metadata.Length) ∧
      (lookup (analyzePacket packet) "protocol" = none ∨
        lookup (analyzePacket packet) "protocol" = some (.str "NGAP") ∨
        lookup (analyzePacket packet) "protocol" = some (.str "PFCP")) ∧
      ((lookup (analyzePacket packet) "analysis").isSome =
        (lookup (analyzePacket packet) "protocol").isSome) ∧
      (∀ a, lookup (analyzePacket packet) "analysis" = some a →
        ∃ m v, a = .obj m ∧ lookup m "message_type" = some v) ∧
      lookup (analyzePacket packet) "threats" =
        (if (detectThreats packet).length > 0 then some (.strs (detectThreats packet))
          else none) := by
  rw [analyzePacket_shape]
  generalize detectThreats packet = threats
  unfold protocolEntries threatEntries
  cases packet.Layer .NGAP <;> cases packet.Layer .PFCP <;> cases threats <;>
    simp [lookup, Packet.Metadata]


/-! ## The volumetric rule -/

/-- C4 fails: in the burst of 1000 frames from one source within one second, the record
of the 101st frame has no `threats` key, so the Potential DoS threat is not carried by
exactly the frames from the 101st onward. -/
theorem flood_frames_not_flagged_from_101st :
    lookup (analyzePacket (floodFrame 100)) "threats" = none ∧
      ¬ (∀ i, i < 1000 →
        (carriesThreat (analyzePacket (floodFrame i)) "Potential DoS Attack" ↔ 100 ≤ i)) := by
  have hnone : lookup (analyzePacket (floodFrame 100)) "threats" = none :=
    lookup_threats_analyzePacket _
  refine ⟨hnone, fun hall => ?_⟩
  obtain ⟨threats, hthreats, _⟩ := (hall 100 (by decide)).2 (le_refl _)
  rw [hnone] at hthreats
  exact Option.noConfusion hthreats

/-- C4 amended: `isPotentialDoS` is false on every frame, whatever was captured before it;
no record of a frame, and no record in the output of a session, carries the Potential DoS
threat. -/
theorem potential_dos_never_attached :
    (∀ packet, isPotentialDoS packet = false ∧
      ¬ carriesThreat (analyzePacket packet) "Potential DoS Attack") ∧
    (∀ (OpenLive : OpenLiveFn) (device filter : String) (r : GoMap),
      r ∈ (StartPacketCapture OpenLive device filter).resultRecords →
        ¬ carriesThreat r "Potential DoS Attack") := by
  have hrec : ∀ packet, ¬ carriesThreat (analyzePacket packet) "Potential DoS Attack" := by
    rintro packet ⟨threats, hthreats, _⟩
    rw [lookup_threats_analyzePacket] at hthreats
    exact Option.noConfusion hthreats
  refine ⟨fun packet => ⟨rfl, hrec packet⟩, ?_⟩
  intro OpenLive device filter r hr
  obtain ⟨packet, rfl⟩ := resultRecords_analysed OpenLive device filter r hr
  exact hrec packet

/-- C4 amended, on the burst of 1000 frames: the session returns 100 records and the last
of them, the record of the 100th frame, carries no Potential DoS threat. -/
theorem potential_dos_never_attached_witness :
    analyzePacket (floodFrame 99) ∈
        (StartPacketCapture (sampleOpenLive floodFrames) "eth0" "udp port 8805").resultRecords ∧
      ¬ carriesThreat (analyzePacket (floodFrame 99)) "Potential DoS Attack" := by
  have hmem : analyzePacket (floodFrame 99) ∈
      (StartPacketCapture (sampleOpenLive floodFrames) "eth0" "udp port 8805").resultRecords := by
    rw [StartPacketCapture_started (sampleOpenLive floodFrames) "eth0" "udp port 8805"
      (sampleHandle floodFrames) (by simp [sampleOpenLive]) (by simp [sampleHandle])]
    simp only [Output.resultRecords, sampleHandle, floodFrames, ← List.map_take,
      List.take_range, List.mem_map, List.mem_range]
    exact ⟨floodFrame 99, ⟨99, by decide, rfl⟩, rfl⟩
  exact ⟨hmem, potential_dos_never_attached.2 _ _ _ _ hmem⟩

/-! ## PFCP frames -/

/-- C5 fails: for the Heartbeat Request frame (PFCP message type 1) the `analysis` of the
record binds `message_type` to the string `PFCP_Message`, not to 1, and the record is the
same as the one of a Heartbeat Response (message type 2). -/
theorem heartbeat_request_message_type_not_reported :
    ¬ (lookup (analyzePacket heartbeatRequestFrame) "protocol" = some (.str "PFCP") ∧
        analysisMessageType (analyzePacket heartbeatRequestFrame) = some (.int 1) ∧
        lookup (analyzePacket heartbeatRequestFrame) "threats" = none) ∧
      analysisMessageType (analyzePacket heartbeatRequestFrame) = some (.str "PFCP_Message") ∧
      analyzePacket heartbeatRequestFrame = analyzePacket heartbeatResponseFrame := by
  have hmt : analysisMessageType (analyzePacket heartbeatRequestFrame) =
      some (.str "PFCP_Message") := by rfl
  refine ⟨fun h => ?_, hmt, by rfl⟩
  rw [hmt] at h
  simp at h

/-- C5 amended: for every packet with a PFCP layer, whatever the message type in its
header, the record has protocol `PFCP`, its `analysis` is the map that binds `message_type`
to the fixed string `PFCP_Message`, and it has no `threats` key. -/
theorem pfcp_frame_record (packet : Packet) (pfcpLayer : Layer)
    (hpfcp : packet.Layer .PFCP = some pfcpLayer) :
    lookup (analyzePacket packet) "protocol" = some (.str "PFCP") ∧
      lookup (analyzePacket packet) "analysis" =
        some (.obj [("message_type", .str "PFCP_Message")]) ∧
      analysisMessageType (analyzePacket packet) = some (.str "PFCP_Message") ∧
      lookup (analyzePacket packet) "threats" = none := by
  have heq := analyzePacket_eq packet
  simp only [protocolEntries, hpfcp] at heq
  rw [heq]
  simp [lookup, analysisMessageType]

/-- C5 amended, on the Heartbeat Request frame. -/
theorem pfcp_frame_record_witness :
    heartbeatRequestFrame.Layer .PFCP =
        some { layerType := .PFCP, contents := [32, 1, 0, 4, 0, 0, 1, 0], payload := [] } ∧
      analyzePacket heartbeatRequestFrame =
        [("timestamp", .time 1700000000000000000), ("length", .int 50),
          ("protocol", .str "PFCP"),
          ("analysis", .obj [("message_type", .str "PFCP_Message")])] ∧
      lookup (analyzePacket heartbeatRequestFrame) "protocol" = some (.str "PFCP") :=
  ⟨by rfl, by rfl, (pfcp_frame_record heartbeatRequestFrame _ (by rfl)).1⟩


/-! ## Frames without a recognised protocol -/

/-- C6: for a packet with neither an NGAP nor a PFCP layer, `analyzePacket` returns the
record that holds just the frame's timestamp and length: `protocol`, `analysis` and
`threats` are absent. A started session that receives such a frame goes on: its output
holds the records of the frames before it, its record, and the records of the frames
after it, up to the limit of 100 records. -/
theorem unrecognised_frame_record (packet : Packet)
    (hngap : packet.Layer .NGAP = none) (hpfcp : packet.Layer .PFCP = none) :
    analyzePacket packet =
        [("timestamp", .time packet.Metadata.Timestamp),
          ("length", .int packet.Metadata.Length)] ∧
      lookup (analyzePacket packet) "protocol" = none ∧
      lookup (analyzePacket packet) "analysis" = none ∧
      lookup (analyzePacket packet) "threats" = none ∧
      (∀ (OpenLive : OpenLiveFn) (device filter : String) (handle : Handle)
        (before after : List Packet),
        OpenLive device 1600 true BlockForever = .ok handle →
        handle.SetBPFFilter filter = none →
        handle.frames = before ++ packet :: after →
        (StartPacketCapture OpenLive device filter).resultRecords =
          (before.map analyzePacket ++
            [("timestamp", .time packet.Metadata.Timestamp),
              ("length", .int packet.Metadata.Length)] ::
            after.map analyzePacket).take 100) := by
  have heq : analyzePacket packet =
      [("timestamp", .time packet.Metadata.Timestamp),
        ("length", .int packet.Metadata.Length)] := by
    rw [analyzePacket_eq]
    simp [protocolEntries, hngap, hpfcp, Packet.Metadata]
  refine ⟨heq, ?_, ?_, ?_, ?_⟩
  · rw [heq]; simp [lookup]
  · rw [heq]; simp [lookup]
  · rw [heq]; simp [lookup]
  · intro OpenLive device filter handle before after hopen hfilter hframes
    rw [StartPacketCapture_started OpenLive device filter handle hopen hfilter, hframes,
      ← heq]
    simp [Output.resultRecords, List.map_take]

/-- C6, on a frame on port 8805 with 3 bytes of payload, followed by a Heartbeat Request. -/
theorem unrecognised_frame_record_witness :
    shortPfcpFrame.Layer .NGAP = none ∧ shortPfcpFrame.Layer .PFCP = none ∧
      analyzePacket shortPfcpFrame =
        [("timestamp", .time 1700000000000000000), ("length", .int 45)] ∧
      (StartPacketCapture (sampleOpenLive [shortPfcpFrame, heartbeatRequestFrame]) "eth0"
        "udp port 8805").resultRecords =
        [[("timestamp", .time 1700000000000000000), ("length", .int 45)],
          [("timestamp", .time 1700000000000000000), ("length", .int 50),
            ("protocol", .str "PFCP"),
            ("analysis", .obj [("message_type", .str "PFCP_Message")])]] := by
  have h := unrecognised_frame_record shortPfcpFrame (by rfl) (by rfl)
  refine ⟨by rfl, by rfl, h.1, ?_⟩
  have hs := h.2.2.2.2 (sampleOpenLive [shortPfcpFrame, heartbeatRequestFrame]) "eth0"
    "udp port 8805" (sampleHandle [shortPfcpFrame, heartbeatRequestFrame]) []
    [heartbeatRequestFrame] (by simp [sampleOpenLive]) (by simp [sampleHandle]) (by rfl)
  rw [hs]
  rfl

/-! ## The threat rules -/

/-- C7: `detectThreats` runs the rule engine `detectThreatsWith` on the rules
`isPotentialDoS` and `isSuspiciousPattern`, and the engine evaluates every rule whatever the
rules are: its list holds the Potential DoS threat exactly when the first rule holds and the
Suspicious Pattern threat exactly when the second holds, in that order and with nothing
else; it does not stop at the first match, so when both rules hold both threats are
reported, and when only the second holds it is still reported. The same description holds
of `detectThreats` with the rules of the program. -/
theorem detectThreats_reports_every_rule :
    (∀ packet, detectThreats packet =
      detectThreatsWith isPotentialDoS isSuspiciousPattern packet) ∧
    (∀ (dos pattern : Packet → Bool) (packet : Packet),
      ("Potential DoS Attack" ∈ detectThreatsWith dos pattern packet ↔ dos packet = true) ∧
      ("Suspicious Pattern Detected" ∈ detectThreatsWith dos pattern packet ↔
        pattern packet = true) ∧
      detectThreatsWith dos pattern packet =
        (if dos packet then ["Potential DoS Attack"] else []) ++
          (if pattern packet then ["Suspicious Pattern Detected"] else []) ∧
      List.Sublist (detectThreatsWith dos pattern packet)
        ["Potential DoS Attack", "Suspicious Pattern Detected"] ∧
      (dos packet = true → pattern packet = true →
        detectThreatsWith dos pattern packet =
          ["Potential DoS Attack", "Suspicious Pattern Detected"]) ∧
      (dos packet = false → pattern packet = true →
        detectThreatsWith dos pattern packet = ["Suspicious Pattern Detected"])) ∧
    (∀ packet,
      ("Potential DoS Attack" ∈ detectThreats packet ↔ isPotentialDoS packet = true) ∧
      ("Suspicious Pattern Detected" ∈ detectThreats packet ↔
        isSuspiciousPattern packet = true) ∧
      detectThreats packet =
        (if isPotentialDoS packet then ["Potential DoS Attack"] else []) ++
          (if isSuspiciousPattern packet then ["Suspicious Pattern Detected"] else []) ∧
      List.Sublist (detectThreats packet)
        ["Potential DoS Attack", "Suspicious Pattern Detected"]) := by
  have hengine : ∀ (dos pattern : Packet → Bool) (packet : Packet),
      ("Potential DoS Attack" ∈ detectThreatsWith dos pattern packet ↔ dos packet = true) ∧
      ("Suspicious Pattern Detected" ∈ detectThreatsWith dos pattern packet ↔
        pattern packet = true) ∧
      detectThreatsWith dos pattern packet =
        (if dos packet then ["Potential DoS Attack"] else []) ++
          (if pattern packet then ["Suspicious Pattern Detected"] else []) ∧
      List.Sublist (detectThreatsWith dos pattern packet)
        ["Potential DoS Attack", "Suspicious Pattern Detected"] := by
    intro dos pattern packet
    unfold detectThreatsWith
    cases dos packet <;> cases pattern packet <;> simp
  refine ⟨fun _ => rfl, ?_, ?_⟩
  · intro dos pattern packet
    obtain ⟨h1, h2, h3, h4⟩ := hengine dos pattern packet
    refine ⟨h1, h2, h3, h4, ?_, ?_⟩
    · intro hd hp
      rw [h3, hd, hp]; rfl
    · intro hd hp
      rw [h3, hd, hp]; rfl
  · intro packet
    exact hengine isPotentialDoS isSuspiciousPattern packet

/-- C7, on two rules that both fire on a frame and on a frame where only the second
fires: both threats are listed for the first frame, the second threat for the other. -/
theorem detectThreats_reports_every_rule_witness :
    (sampleDoSRule oversizedTruncatedFrame = true ∧
      sampleTruncatedRule oversizedTruncatedFrame = true ∧
      detectThreatsWith sampleDoSRule sampleTruncatedRule oversizedTruncatedFrame =
        ["Potential DoS Attack", "Suspicious Pattern Detected"]) ∧
    (isPotentialDoS oversizedTruncatedFrame = false ∧
      sampleTruncatedRule oversizedTruncatedFrame = true ∧
      detectThreatsWith isPotentialDoS sampleTruncatedRule oversizedTruncatedFrame =
        ["Suspicious Pattern Detected"]) :=
  ⟨⟨by decide, by decide,
      (detectThreats_reports_every_rule.2.1 sampleDoSRule sampleTruncatedRule
        oversizedTruncatedFrame).2.2.2.2.1 (by decide) (by decide)⟩,
    by rfl, by decide,
      (detectThreats_reports_every_rule.2.1 isPotentialDoS sampleTruncatedRule
        oversizedTruncatedFrame).2.2.2.2.2 (by rfl) (by decide)⟩

/-! ## Statelessness -/

/-- C8: the record of a frame depends on that frame alone. Two started sessions, on any
devices and filters, that receive the same frame sequence return the same output; and a
frame that arrives at position `i` of one session and at position `j` of another (or of
the same one), both within the first 100, gets the same record at both positions, the one
`analyzePacket` gives for it. -/
theorem analysis_is_stateless (OpenLive₁ OpenLive₂ : OpenLiveFn)
    (device₁ filter₁ device₂ filter₂ : String) (handle₁ handle₂ : Handle)
    (hopen₁ : OpenLive₁ device₁ 1600 true BlockForever = .ok handle₁)
    (hfilter₁ : handle₁.SetBPFFilter filter₁ = none)
    (hopen₂ : OpenLive₂ device₂ 1600 true BlockForever = .ok handle₂)
    (hfilter₂ : handle₂.SetBPFFilter filter₂ = none) :
    (handle₁.frames = handle₂.frames →
      StartPacketCapture OpenLive₁ device₁ filter₁ =
        StartPacketCapture OpenLive₂ device₂ filter₂) ∧
    (∀ (i j : Nat) (packet : Packet), i < 100 → j < 100 →
      handle₁.frames[i]? = some packet → handle₂.frames[j]? = some packet →
      (StartPacketCapture OpenLive₁ device₁ filter₁).resultRecords[i]? =
          some (analyzePacket packet) ∧
        (StartPacketCapture OpenLive₂ device₂ filter₂).resultRecords[j]? =
          some (analyzePacket packet)) := by
  rw [StartPacketCapture_started OpenLive₁ device₁ filter₁ handle₁ hopen₁ hfilter₁,
    StartPacketCapture_started OpenLive₂ device₂ filter₂ handle₂ hopen₂ hfilter₂]
  refine ⟨fun hframes => by rw [hframes], ?_⟩
  intro i j packet hi hj h₁ h₂
  simp [Output.resultRecords, List.getElem?_take, hi, hj, h₁, h₂]

/-- C8, on two sessions in which the Heartbeat Request arrives second and first. -/
theorem analysis_is_stateless_witness :
    (sampleOpenLive [shortPfcpFrame, heartbeatRequestFrame] "eth0" 1600 true BlockForever =
        .ok (sampleHandle [shortPfcpFrame, heartbeatRequestFrame]) ∧
      sampleOpenLive [heartbeatRequestFrame, ngapFrame] "eth0" 1600 true BlockForever =
        .ok (sampleHandle [heartbeatRequestFrame, ngapFrame]) ∧
      (sampleHandle [shortPfcpFrame, heartbeatRequestFrame]).SetBPFFilter "udp port 8805" =
        none ∧
      (sampleHandle [shortPfcpFrame, heartbeatRequestFrame]).frames[1]? =
        some heartbeatRequestFrame ∧
      (sampleHandle [heartbeatRequestFrame, ngapFrame]).frames[0]? =
        some heartbeatRequestFrame) ∧
    (StartPacketCapture (sampleOpenLive [shortPfcpFrame, heartbeatRequestFrame]) "eth0"
        "udp port 8805").resultRecords[1]? = some (analyzePacket heartbeatRequestFrame) ∧
      (StartPacketCapture (sampleOpenLive [heartbeatRequestFrame, ngapFrame]) "eth0"
        "udp port 8805").resultRecords[0]? = some (analyzePacket heartbeatRequestFrame) :=
  ⟨⟨by simp [sampleOpenLive], by simp [sampleOpenLive], by simp [sampleHandle], by rfl, by rfl⟩,
    (analysis_is_stateless (sampleOpenLive [shortPfcpFrame, heartbeatRequestFrame])
      (sampleOpenLive [heartbeatRequestFrame, ngapFrame]) "eth0" "udp port 8805" "eth0"
      "udp port 8805" (sampleHandle [shortPfcpFrame, heartbeatRequestFrame])
      (sampleHandle [heartbeatRequestFrame, ngapFrame])
      (by simp [sampleOpenLive]) (by simp [sampleHandle])
      (by simp [sampleOpenLive]) (by simp [sampleHandle])).2 1 0 heartbeatRequestFrame
      (by decide) (by decide) (by rfl) (by rfl)⟩

/-! ## The rules never fire -/

/-- C9: `isPotentialDoS` and `isSuspiciousPattern` are false on every packet, so
`detectThreats` returns the empty list, no record of `analyzePacket` has the key
`threats`, and no record in an output of `StartPacketCapture` has it. -/
theorem no_threat_is_ever_reported :
    (∀ packet, isPotentialDoS packet = false ∧ isSuspiciousPattern packet = false ∧
      detectThreats packet = [] ∧ lookup (analyzePacket packet) "threats" = none ∧
      "threats" ∉ (analyzePacket packet).map Prod.fst) ∧
    (∀ (OpenLive : OpenLiveFn) (device filter : String) (r : GoMap),
      r ∈ (StartPacketCapture OpenLive device filter).resultRecords →
        lookup r "threats" = none ∧ "threats" ∉ r.map Prod.fst) := by
  have hkeys : ∀ packet, "threats" ∉ (analyzePacket packet).map Prod.fst := by
    intro packet
    rw [analyzePacket_eq]
    unfold protocolEntries
    split <;> simp
  refine ⟨fun packet => ⟨rfl, rfl, detectThreats_eq_nil packet,
    lookup_threats_analyzePacket packet, hkeys packet⟩, ?_⟩
  intro OpenLive device filter r hr
  obtain ⟨packet, rfl⟩ := resultRecords_analysed OpenLive device filter r hr
  exact ⟨lookup_threats_analyzePacket packet, hkeys packet⟩

/-! ## Both protocol layers -/

/-- C10: the two protocol checks both run. For a packet with an NGAP layer and a PFCP
layer the record has protocol `PFCP` and the PFCP analysis; the protocol is `NGAP` exactly
when an NGAP layer is present and no PFCP layer is. -/
theorem pfcp_check_overwrites_ngap (packet : Packet) :
    (∀ ngapLayer pfcpLayer, packet.Layer .NGAP = some ngapLayer →
      packet.Layer .PFCP = some pfcpLayer →
      lookup (analyzePacket packet) "protocol" = some (.str "PFCP") ∧
        lookup (analyzePacket packet) "analysis" = some (.obj (analyzePFCP pfcpLayer))) ∧
    (lookup (analyzePacket packet) "protocol" = some (.str "NGAP") ↔
      (packet.Layer .NGAP).isSome = true ∧ packet.Layer .PFCP = none) := by
  rw [analyzePacket_eq]
  unfold protocolEntries
  cases packet.Layer .NGAP <;> cases packet.Layer .PFCP <;>
    simp [lookup, analyzePFCP, assign]

/-- C10, on a packet with both layers and on a packet with an NGAP layer alone. -/
theorem pfcp_check_overwrites_ngap_witness :
    (bothLayersFrame.Layer .NGAP).isSome = true ∧ (bothLayersFrame.Layer .PFCP).isSome = true ∧
      lookup (analyzePacket bothLayersFrame) "protocol" = some (.str "PFCP") ∧
      lookup (analyzePacket ngapFrame) "protocol" = some (.str "NGAP") :=
  ⟨by rfl, by rfl,
    ((pfcp_check_overwrites_ngap bothLayersFrame).1 _ _ (by rfl) (by rfl)).1,
    (pfcp_check_overwrites_ngap ngapFrame).2.2 ⟨by rfl, by rfl⟩⟩

end PacketInspector
